import Mathlib

/-!
Shallow embedding of the deckdex track-identifier and playlist-sync
subsystems (src/deckdex/identifier/models.py, identifier/service.py,
playlist/models.py, playlist/service.py, playlist/sync.py), with theorems
settling the specification claims about them.

Timestamps (`datetime.now()`) are modelled as `Nat` values passed in
explicitly; the SQLite store is modelled as in-memory lists of rows with
the statements the code issues (keyed lookups, INSERT OR REPLACE upserts,
primary-key checked inserts) made explicit.  Python float arithmetic in
`similarity_score` is modelled with exact rationals.
-/

set_option autoImplicit false

namespace Deckdex

/-! ## identifier/models.py -/

/-- `IdentificationMethod` enum: methods used to identify tracks. -/
inductive IdentificationMethod where
  | hash
  | fingerprint
  | path
  | uuid
  deriving DecidableEq, Repr

/-- `ConfidenceLevel` enum: confidence levels for track identifications. -/
inductive ConfidenceLevel where
  | high
  | medium
  | low
  | uncertain
  deriving DecidableEq, Repr

/-- `TrackLocation`: one entry of a track's file-location history. -/
structure TrackLocation where
  track_id : String
  file_path : String
  timestamp : Nat
  active : Bool := true
  deriving DecidableEq, Repr

/-- `TrackLocation.deactivate`: mark a location as no longer current. -/
def TrackLocation.deactivate (loc : TrackLocation) : TrackLocation :=
  { loc with active := false }

/-- `AudioFingerprint`: Chromaprint audio fingerprint data.  The
fingerprint payload is the raw comma-separated string the code stores. -/
structure AudioFingerprint where
  fingerprint : String
  duration : Rat
  sample_rate : Nat
  created_at : Nat := 0
  algorithm_version : String := "chromaprint_1"
  deriving DecidableEq, Repr

/-- Errors `similarity_score` can raise (Python raises `ValueError` both
for an algorithm-version mismatch and for a malformed integer list; the
two causes are distinguished here by constructor). -/
inductive SimError where
  | algorithmMismatch
  | parseError
  deriving DecidableEq, Repr

/-- Python `s.split(',')` over the characters of `s`; `"".split(',')`
yields `['']`. -/
def splitComma : List Char → List (List Char)
  | [] => [[]]
  | c :: rest =>
      if c = ',' then [] :: splitComma rest
      else
        match splitComma rest with
        | [] => [[c]]
        | group :: groups => (c :: group) :: groups

/-- Decimal digit value of a character, if it is a digit. -/
def digitVal (c : Char) : Option Nat :=
  if '0' ≤ c ∧ c ≤ '9' then some (c.toNat - '0'.toNat) else none

/-- Python `int(x)` on a non-empty all-digit string. -/
def parseNatChars (cs : List Char) : Option Nat :=
  match cs with
  | [] => none
  | _ => cs.foldlM (fun acc c => (digitVal c).map (fun d => acc * 10 + d)) 0

/-- Python `int(x)`: an optional leading minus sign, then digits. -/
def parseIntChars : List Char → Option Int
  | '-' :: rest => (parseNatChars rest).map (fun n => -(n : Int))
  | cs => (parseNatChars cs).map (fun n => (n : Int))

/-- `[int(x) for x in s.split(',')]`: parse a comma-separated integer
list, failing if any component is not an integer literal. -/
def parseFingerprint (s : String) : Option (List Int) :=
  (splitComma s.toList).mapM parseIntChars

/-- `similarity_score` (identifier/models.py): version check, parse both
comma-separated fingerprints, right-pad the shorter with zeros, and return
`1 - differences / max_len`. -/
def similarity_score (self other : AudioFingerprint) : Except SimError Rat :=
  if self.algorithm_version ≠ other.algorithm_version then
    .error .algorithmMismatch
  else
    match parseFingerprint self.fingerprint, parseFingerprint other.fingerprint with
    | some fp1, some fp2 =>
        let max_len := max fp1.length fp2.length
        let fp1 := fp1 ++ List.replicate (max_len - fp1.length) 0
        let fp2 := fp2 ++ List.replicate (max_len - fp2.length) 0
        let differences := ((fp1.zip fp2).filter (fun p => p.1 ≠ p.2)).length
        .ok (1 - (differences : Rat) / (max_len : Rat))
    | _, _ => .error .parseError

/-- `TrackIdentifier`: the main track identification record.  The Python
`metadata` dict is unused by the code under study and omitted. -/
structure TrackIdentifier where
  file_hash : String
  track_id : String
  audio_fingerprint : Option AudioFingerprint := none
  created_at : Nat := 0
  last_seen : Nat := 0
  confidence_level : ConfidenceLevel := .uncertain
  locations : List TrackLocation := []
  deriving DecidableEq, Repr

/-- `TrackIdentifier.add_location`: deactivate every previously active
location, then append a fresh active location for `file_path`. -/
def TrackIdentifier.add_location (t : TrackIdentifier) (file_path : String)
    (now : Nat) : TrackIdentifier :=
  let deactivated := t.locations.map (fun loc => if loc.active then loc.deactivate else loc)
  let new_location : TrackLocation :=
    { track_id := t.track_id, file_path := file_path, timestamp := now, active := true }
  { t with locations := deactivated ++ [new_location] }

/-- The `methods_available` list built by
`TrackIdentifier._update_confidence_level`: HASH if the hash string is
non-empty (Python truthiness), FINGERPRINT if a fingerprint is present,
PATH if the location history is non-empty. -/
def TrackIdentifier.methods_available (t : TrackIdentifier) : List IdentificationMethod :=
  (if t.file_hash ≠ "" then [IdentificationMethod.hash] else []) ++
  (if t.audio_fingerprint.isSome then [IdentificationMethod.fingerprint] else []) ++
  (if t.locations ≠ [] then [IdentificationMethod.path] else [])

/-- The confidence computation of `_update_confidence_level` as a pure
function of the available-method list. -/
def confidenceOf (methods : List IdentificationMethod) : ConfidenceLevel :=
  if 2 ≤ methods.length ∧ IdentificationMethod.fingerprint ∈ methods then .high
  else if IdentificationMethod.fingerprint ∈ methods then .medium
  else if methods ≠ [] then .low
  else .uncertain

/-- `TrackIdentifier._update_confidence_level`: recompute and store the
confidence level from the currently available methods. -/
def TrackIdentifier.update_confidence_level (t : TrackIdentifier) : TrackIdentifier :=
  { t with confidence_level := confidenceOf t.methods_available }

/-- `TrackIdentifier.update_fingerprint`: set the fingerprint, refresh
`last_seen`, recompute confidence. -/
def TrackIdentifier.update_fingerprint (t : TrackIdentifier)
    (fp : AudioFingerprint) (now : Nat) : TrackIdentifier :=
  TrackIdentifier.update_confidence_level { t with audio_fingerprint := some fp, last_seen := now }

/-- `TrackIdentifier.update_hash`: set the file hash, refresh `last_seen`,
recompute confidence. -/
def TrackIdentifier.update_hash (t : TrackIdentifier)
    (new_hash : String) (now : Nat) : TrackIdentifier :=
  TrackIdentifier.update_confidence_level { t with file_hash := new_hash, last_seen := now }

/-- `TrackIdentificationResult`: result of one identification run. -/
structure TrackIdentificationResult where
  identifier : TrackIdentifier
  matched_methods : List IdentificationMethod
  is_new : Bool
  confidence_level : ConfidenceLevel
  similarity_scores : List (IdentificationMethod × Rat) := []
  deriving DecidableEq, Repr

/-! ## identifier/service.py

`TrackIdentifierService` talks to a SQLite store.  The store is modelled
as the in-memory list of `track_identifiers` rows (each carrying its
location history, as `_row_to_identifier` reassembles it); `_save_track`'s
`INSERT OR REPLACE` keyed on `track_id` is modelled as an upsert.  Hashing
and fingerprint generation read the file, so a file is modelled by the
hash it yields and the (best-effort, hence optional) fingerprint `fpcalc`
produces for it. -/

/-- The inputs `identify_track` derives from the file itself:
`_calculate_file_hash`'s digest and `_generate_fingerprint`'s result
(`none` when the tool fails, a non-fatal degradation). -/
structure FileInput where
  file_hash : String
  fingerprint : Option AudioFingerprint
  path : String
  deriving DecidableEq, Repr

/-- `_find_by_hash`: first stored row whose `file_hash` matches. -/
def find_by_hash (store : List TrackIdentifier) (file_hash : String) :
    Option TrackIdentifier :=
  store.find? (fun t => t.file_hash == file_hash)

/-- `_find_by_fingerprint`: scan the stored rows that carry a fingerprint
in order, compute the similarity against each, and return the first whose
score meets the threshold; a `similarity_score` error propagates. -/
def find_by_fingerprint (store : List TrackIdentifier) (fingerprint : AudioFingerprint)
    (similarity_threshold : Rat) : Except SimError (Option TrackIdentifier) :=
  match store with
  | [] => .ok none
  | t :: rest =>
    match t.audio_fingerprint with
    | none => find_by_fingerprint rest fingerprint similarity_threshold
    | some stored_fp =>
      match similarity_score fingerprint stored_fp with
      | .error e => .error e
      | .ok similarity =>
        if similarity_threshold ≤ similarity then .ok (some t)
        else find_by_fingerprint rest fingerprint similarity_threshold

/-- `_save_track`: `INSERT OR REPLACE` keyed on `track_id` — replace the
rows holding this `track_id`, or append when none does. -/
def save_track (store : List TrackIdentifier) (track : TrackIdentifier) :
    List TrackIdentifier :=
  if store.any (fun u => u.track_id == track.track_id) then
    store.map (fun u => if u.track_id == track.track_id then track else u)
  else
    store ++ [track]

/-- `_update_existing_track`: add the new location, overwrite the
fingerprint when one is supplied (recording a similarity score of 1.0),
refresh `last_seen`, and report `is_new = false` with the track's stored
confidence level.  Note: the confidence level is not recomputed. -/
def update_existing_track (track : TrackIdentifier) (file_path : String)
    (new_fingerprint : Option AudioFingerprint) (now : Nat) :
    TrackIdentificationResult :=
  let track := track.add_location file_path now
  let track :=
    match new_fingerprint with
    | some fp => { track with audio_fingerprint := some fp }
    | none => track
  let track := { track with last_seen := now }
  { identifier := track
    matched_methods :=
      IdentificationMethod.uuid ::
        (match new_fingerprint with
         | some _ => [IdentificationMethod.fingerprint]
         | none => [])
    is_new := false
    confidence_level := track.confidence_level
    similarity_scores :=
      match new_fingerprint with
      | some _ => [(IdentificationMethod.fingerprint, 1)]
      | none => [] }

/-- `_create_new_track`: build a fresh `TrackIdentifier` (dataclass
defaults: `confidence_level = UNCERTAIN`, fresh uuid for `track_id`,
empty location list), add the initial location, report `is_new = true`.
Note: the confidence level is left at its `UNCERTAIN` default. -/
def create_new_track (file_path : String) (file_hash : String)
    (fingerprint : Option AudioFingerprint) (fresh_id : String) (now : Nat) :
    TrackIdentificationResult :=
  let track : TrackIdentifier :=
    { file_hash := file_hash
      track_id := fresh_id
      audio_fingerprint := fingerprint
      created_at := now
      last_seen := now }
  let track := track.add_location file_path now
  { identifier := track
    matched_methods :=
      IdentificationMethod.hash ::
        (match fingerprint with
         | some _ => [IdentificationMethod.fingerprint]
         | none => [])
    is_new := true
    confidence_level := track.confidence_level }

/-- `identify_track`: hash lookup first; otherwise fingerprint similarity
search; otherwise create a new track.  Returns the result together with
the store after `_save_track`.  `fresh_id` stands for the `uuid4()` drawn
when a new track is created. -/
def identify_track (store : List TrackIdentifier) (file : FileInput)
    (fresh_id : String) (now : Nat) :
    Except SimError (TrackIdentificationResult × List TrackIdentifier) :=
  match find_by_hash store file.file_hash with
  | some track =>
      let res := update_existing_track track file.path none now
      .ok (res, save_track store res.identifier)
  | none =>
    match file.fingerprint with
    | some fingerprint =>
      match find_by_fingerprint store fingerprint 0.85 with
      | .error e => .error e
      | .ok (some similar_track) =>
          let res := update_existing_track similar_track file.path (some fingerprint) now
          .ok (res, save_track store res.identifier)
      | .ok none =>
          let res := create_new_track file.path file.file_hash (some fingerprint) fresh_id now
          .ok (res, save_track store res.identifier)
    | none =>
        let res := create_new_track file.path file.file_hash none fresh_id now
        .ok (res, save_track store res.identifier)

/-! ## playlist/models.py -/

/-- `SyncStatus` enum. -/
inductive SyncStatus where
  | pending
  | synced
  | conflict
  deriving DecidableEq, Repr

/-- `PlaylistSource` enum. -/
inductive PlaylistSource where
  | plex
  | rekordbox
  deriving DecidableEq, Repr

/-- `PlaylistItem`: an item in a playlist representing a track. -/
structure PlaylistItem where
  playlist_id : String
  track_id : String
  position : Int
  added_at : Nat := 0
  external_id : Option String := none
  deriving DecidableEq, Repr

/-- `Playlist`: a playlist containing ordered tracks. -/
structure Playlist where
  name : String
  source : PlaylistSource
  id : String
  description : Option String := none
  external_id : Option String := none
  items : List PlaylistItem := []
  created_at : Nat := 0
  modified_at : Nat := 0
  version : Int := 1
  is_active : Bool := true
  deriving DecidableEq, Repr

/-- `PlaylistSyncStatus`: per-playlist sync clocks, one per source. -/
structure PlaylistSyncStatus where
  playlist_id : String
  last_plex_sync : Option Nat := none
  last_rekordbox_sync : Option Nat := none
  plex_version : Int := 0
  rekordbox_version : Int := 0
  sync_status : SyncStatus := .pending
  deriving DecidableEq, Repr

/-! ## playlist/sync.py -/

/-- Membership-based equality of Python `set(...)` values built from two
track-id lists. -/
def sameTrackSet (xs ys : List String) : Bool :=
  xs.all (fun x => x ∈ ys) && ys.all (fun y => y ∈ xs)

/-- `(item.position, item.track_id)` sequence of a playlist, in item
order. -/
def trackOrder (p : Playlist) : List (Int × String) :=
  p.items.map (fun item => (item.position, item.track_id))

/-- `PlaylistSyncService._playlist_needs_update`: names differ, or item
counts differ, or the track-id sets differ, or the ordered
`(position, track_id)` sequences differ. -/
def playlist_needs_update (existing new : Playlist) : Bool :=
  if existing.name ≠ new.name then true
  else if existing.items.length ≠ new.items.length then true
  else if ¬ sameTrackSet (existing.items.map (·.track_id)) (new.items.map (·.track_id)) then true
  else if trackOrder existing ≠ trackOrder new then true
  else false

/-! ## playlist/service.py

`PlaylistService` talks to a SQLite store.  The `playlist_items` table is
created with `PRIMARY KEY (playlist_id, track_id)`, so a plain `INSERT`
of a duplicate key raises an integrity error; an uncommitted transaction
rolls back when the statement fails, which the `Except` error path models
(the caller keeps the old store).  `playlists.id` and
`playlist_sync.playlist_id` are likewise primary keys. -/

/-- A persistence failure: a violated uniqueness/primary-key constraint. -/
inductive PersistenceError where
  | uniqueConstraint
  deriving DecidableEq, Repr

/-- One row of the `playlist_items` table. -/
structure ItemRow where
  playlist_id : String
  track_id : String
  position : Int
  added_at : Nat := 0
  external_id : Option String := none
  deriving DecidableEq, Repr

/-- `INSERT INTO playlist_items ...` under `PRIMARY KEY
(playlist_id, track_id)`: reject a duplicate key, else append. -/
def insert_item (table : List ItemRow) (row : ItemRow) :
    Except PersistenceError (List ItemRow) :=
  if table.any (fun r => r.playlist_id == row.playlist_id && r.track_id == row.track_id) then
    .error .uniqueConstraint
  else
    .ok (table ++ [row])

/-- The `playlist_items` row `create_playlist`/`update_playlist` build
for one `PlaylistItem` (the row's `playlist_id` is taken from the
playlist, not from the item). -/
def mkItemRow (playlist_id : String) (item : PlaylistItem) : ItemRow :=
  { playlist_id := playlist_id
    track_id := item.track_id
    position := item.position
    added_at := item.added_at
    external_id := item.external_id }

/-- The playlist database state the claims touch: `playlists`,
`playlist_items` and `playlist_sync` tables. -/
structure PlaylistDB where
  playlists : List Playlist
  playlist_items : List ItemRow
  playlist_sync : List PlaylistSyncStatus
  deriving DecidableEq, Repr

/-- `PlaylistService.create_playlist`: insert the playlist row (id is a
primary key), insert each item row in order, then the initial sync-status
row; any constraint failure aborts the transaction and the store is left
unchanged. -/
def create_playlist (db : PlaylistDB) (playlist : Playlist) :
    Except PersistenceError PlaylistDB :=
  if db.playlists.any (fun p => p.id == playlist.id) then
    .error PersistenceError.uniqueConstraint
  else
    match playlist.items.foldlM
        (fun table item => insert_item table (mkItemRow playlist.id item))
        db.playlist_items with
    | .error e => .error e
    | .ok items =>
      if db.playlist_sync.any (fun r => r.playlist_id == playlist.id) then
        .error PersistenceError.uniqueConstraint
      else
        .ok { playlists := db.playlists ++ [playlist]
              playlist_items := items
              playlist_sync :=
                db.playlist_sync ++ [{ playlist_id := playlist.id : PlaylistSyncStatus }] }

/-- `PlaylistService.update_playlist`: return `false` when no playlist
row has this id; otherwise update the playlist row (bumping `version` by
one and setting `modified_at` to now), delete this playlist's item rows,
and re-insert the new items in order; a constraint failure aborts the
transaction, leaving the store unchanged. -/
def update_playlist (db : PlaylistDB) (playlist : Playlist) (now : Nat) :
    Except PersistenceError (Bool × PlaylistDB) :=
  if db.playlists.any (fun p => p.id == playlist.id) then
    let playlists := db.playlists.map (fun p =>
      if p.id == playlist.id then
        { p with
          name := playlist.name
          description := playlist.description
          source := playlist.source
          external_id := playlist.external_id
          modified_at := now
          version := p.version + 1
          is_active := playlist.is_active }
      else p)
    let remaining := db.playlist_items.filter (fun r => ¬ r.playlist_id == playlist.id)
    match playlist.items.foldlM
        (fun table item => insert_item table (mkItemRow playlist.id item)) remaining with
    | .error e => .error e
    | .ok items =>
        .ok (true, { db with playlists := playlists, playlist_items := items })
  else
    .ok (false, db)

/-- The Python truthiness test `if version:` on an `Optional[int]`. -/
def versionTruthy : Option Int → Bool
  | some v => v ≠ 0
  | none => false

/-- The row-level effect of `PlaylistService.update_sync_status` on this
playlist's `playlist_sync` row: set the chosen source's last-sync
timestamp and the shared `sync_status`, and, when a (truthy) version is
supplied, that source's version column. -/
def apply_sync_update (row : PlaylistSyncStatus) (source : PlaylistSource)
    (status : SyncStatus) (version : Option Int) (now : Nat) : PlaylistSyncStatus :=
  match source with
  | .plex =>
      if versionTruthy version then
        { row with last_plex_sync := some now, sync_status := status,
                   plex_version := version.getD 0 }
      else
        { row with last_plex_sync := some now, sync_status := status }
  | .rekordbox =>
      if versionTruthy version then
        { row with last_rekordbox_sync := some now, sync_status := status,
                   rekordbox_version := version.getD 0 }
      else
        { row with last_rekordbox_sync := some now, sync_status := status }

/-- `PlaylistService.update_sync_status`: `false` when the playlist does
not exist; otherwise apply the per-source update to this playlist's sync
row. -/
def update_sync_status (db : PlaylistDB) (playlist_id : String)
    (source : PlaylistSource) (status : SyncStatus) (version : Option Int)
    (now : Nat) : Bool × PlaylistDB :=
  if db.playlists.any (fun p => p.id == playlist_id) then
    (true, { db with playlist_sync := db.playlist_sync.map (fun r =>
        if r.playlist_id == playlist_id then
          apply_sync_update r source status version now
        else r) })
  else
    (false, db)

/-! ## Auxiliary definitions used by the theorems -/

/-- Folding `add_location` over a call list, as consecutive calls do. -/
def applyAddLocations (t : TrackIdentifier) (calls : List (String × Nat)) :
    TrackIdentifier :=
  calls.foldl (fun acc c => acc.add_location c.1 c.2) t

/-- Count of positions at which two equal-length sequences differ
(the spec's "count of differing positions"). -/
def countDiffering : List Int → List Int → Nat
  | x :: xs, y :: ys => (if x ≠ y then 1 else 0) + countDiffering xs ys
  | _, _ => 0

/-- The similarity formula as the spec words it: pad the shorter sequence
on the right with zeros until lengths match, then
`1 - (count of differing positions) / max(len1, len2)`. -/
def spec_similarity (l1 l2 : List Int) : Rat :=
  let len := max l1.length l2.length
  let p1 := l1 ++ List.replicate (len - l1.length) 0
  let p2 := l2 ++ List.replicate (len - l2.length) 0
  1 - (countDiffering p1 p2 : Rat) / (len : Rat)

/-- Whether a stored track carries a fingerprint whose similarity to the
query fingerprint computes and meets the threshold (the per-row test of
`_find_by_fingerprint`'s scan). -/
def meetsThreshold (query : AudioFingerprint) (threshold : Rat)
    (t : TrackIdentifier) : Bool :=
  match t.audio_fingerprint with
  | none => false
  | some stored =>
    match similarity_score query stored with
    | .ok v => threshold ≤ v
    | .error _ => false

/-- A row the `_find_by_fingerprint` scan passes over without returning:
either it has no fingerprint, or its similarity computes to a value below
the threshold. -/
def scanSkips (query : AudioFingerprint) (threshold : Rat)
    (t : TrackIdentifier) : Prop :=
  t.audio_fingerprint = none ∨
    ∃ stored v, t.audio_fingerprint = some stored ∧
      similarity_score query stored = .ok v ∧ v < threshold

/-- Whether the similarity of the query against a stored track's
fingerprint (if any) computes without error. -/
def simComputes (query : AudioFingerprint) (t : TrackIdentifier) : Bool :=
  match t.audio_fingerprint with
  | none => true
  | some stored =>
    match similarity_score query stored with
    | .ok _ => true
    | .error _ => false

/-- The `playlist_items` primary-key invariant: the `(playlist_id,
track_id)` pairs of the stored rows are pairwise distinct. -/
def itemsKeyNodup (table : List ItemRow) : Prop :=
  (table.map (fun r => (r.playlist_id, r.track_id))).Nodup

end Deckdex

deriving instance DecidableEq for Except

namespace Deckdex

/-! ## Theorems -/

section ConfidenceClaims

/-- Helper: the branch analysis of `confidenceOf` when FINGERPRINT is
absent but some method holds. -/
theorem confidenceOf_no_fingerprint (ms : List IdentificationMethod)
    (hfp : IdentificationMethod.fingerprint ∉ ms) (hne : ms ≠ []) :
    confidenceOf ms = .low := by
  unfold confidenceOf
  rw [if_neg (fun h => hfp h.2), if_neg hfp, if_pos hne]

/-- C3: The confidence level is a pure function of the identification
methods held: HIGH with ≥2 methods including FINGERPRINT, MEDIUM with
FINGERPRINT alone, LOW with any other method but no FINGERPRINT,
UNCERTAIN with none; hence a hash-only identity is LOW and a
hash-plus-fingerprint identity is at least MEDIUM. -/
theorem confidence_level_cases (t : TrackIdentifier) :
    (2 ≤ t.methods_available.length ∧
        IdentificationMethod.fingerprint ∈ t.methods_available →
      t.update_confidence_level.confidence_level = ConfidenceLevel.high)
    ∧ (t.methods_available = [IdentificationMethod.fingerprint] →
      t.update_confidence_level.confidence_level = ConfidenceLevel.medium)
    ∧ (IdentificationMethod.fingerprint ∉ t.methods_available →
        t.methods_available ≠ [] →
      t.update_confidence_level.confidence_level = ConfidenceLevel.low)
    ∧ (t.methods_available = [] →
      t.update_confidence_level.confidence_level = ConfidenceLevel.uncertain)
    ∧ (t.file_hash ≠ "" → t.audio_fingerprint = none → t.locations = [] →
      t.update_confidence_level.confidence_level = ConfidenceLevel.low)
    ∧ (t.file_hash ≠ "" → t.audio_fingerprint.isSome →
      t.update_confidence_level.confidence_level = ConfidenceLevel.high ∨
        t.update_confidence_level.confidence_level = ConfidenceLevel.medium) := by
  have hconf : t.update_confidence_level.confidence_level = confidenceOf t.methods_available := rfl
  refine ⟨?_, ?_, ?_, ?_, ?_, ?_⟩
  · intro h
    rw [hconf]
    unfold confidenceOf
    rw [if_pos h]
  · intro h
    rw [hconf, h]
    rfl
  · intro hfp hne
    rw [hconf]
    exact confidenceOf_no_fingerprint _ hfp hne
  · intro h
    rw [hconf, h]
    rfl
  · intro hh hfp hloc
    have hms : t.methods_available = [IdentificationMethod.hash] := by
      unfold TrackIdentifier.methods_available
      rw [if_pos hh, hfp, hloc]
      rfl
    rw [hconf, hms]
    rfl
  · intro hh hfp
    have hmem : IdentificationMethod.hash ∈ t.methods_available ∧
        IdentificationMethod.fingerprint ∈ t.methods_available ∧
        2 ≤ t.methods_available.length := by
      unfold TrackIdentifier.methods_available
      rw [if_pos hh, if_pos hfp]
      refine ⟨List.mem_append.mpr (Or.inl (List.mem_append.mpr (Or.inl ?_))),
        List.mem_append.mpr (Or.inl (List.mem_append.mpr (Or.inr ?_))), ?_⟩
      · exact List.mem_singleton.mpr rfl
      · exact List.mem_singleton.mpr rfl
      · simp only [List.length_append, List.length_singleton]
        omega
    left
    rw [hconf]
    unfold confidenceOf
    rw [if_pos ⟨hmem.2.2, hmem.2.1⟩]

/-- Witness for C3 at concrete identities: hash-only is LOW,
fingerprint-only is MEDIUM, hash+fingerprint is HIGH or MEDIUM, and an
evidence-free identity is UNCERTAIN. -/
theorem confidence_level_cases_spotcheck :
    (TrackIdentifier.update_confidence_level
        { file_hash := "h", track_id := "t1" }).confidence_level = ConfidenceLevel.low
    ∧ (TrackIdentifier.update_confidence_level
        { file_hash := "", track_id := "t2",
          audio_fingerprint := some { fingerprint := "1", duration := 0, sample_rate := 44100 } }
        ).confidence_level = ConfidenceLevel.medium
    ∧ ((TrackIdentifier.update_confidence_level
        { file_hash := "h", track_id := "t3",
          audio_fingerprint := some { fingerprint := "1", duration := 0, sample_rate := 44100 } }
        ).confidence_level = ConfidenceLevel.high ∨
       (TrackIdentifier.update_confidence_level
        { file_hash := "h", track_id := "t3",
          audio_fingerprint := some { fingerprint := "1", duration := 0, sample_rate := 44100 } }
        ).confidence_level = ConfidenceLevel.medium)
    ∧ (TrackIdentifier.update_confidence_level
        { file_hash := "", track_id := "t4" }).confidence_level = ConfidenceLevel.uncertain := by
  refine ⟨?_, ?_, ?_, ?_⟩
  · exact (confidence_level_cases _).2.2.2.2.1 (by decide) rfl rfl
  · exact (confidence_level_cases _).2.1 rfl
  · exact (confidence_level_cases _).2.2.2.2.2 (by decide) rfl
  · exact (confidence_level_cases _).2.2.2.1 rfl

end ConfidenceClaims

section LocationClaims

/-- Helper: after the deactivation pass of `add_location`, no location is
active. -/
theorem filter_active_deactivated (ls : List TrackLocation) :
    (ls.map (fun loc => if loc.active then loc.deactivate else loc)).filter
      (fun loc => loc.active) = [] := by
  induction ls with
  | nil => rfl
  | cons l rest ih =>
      by_cases h : l.active
      · simpa [h, TrackLocation.deactivate] using ih
      · simpa [h] using ih

/-- Helper: one `add_location` call leaves exactly the new location
active. -/
theorem add_location_filter (t : TrackIdentifier) (p : String) (n : Nat) :
    (t.add_location p n).locations.filter (fun loc => loc.active) =
      [{ track_id := t.track_id, file_path := p, timestamp := n, active := true }] := by
  unfold TrackIdentifier.add_location
  simp [List.filter_append, filter_active_deactivated]

/-- Helper: `add_location` preserves the track id. -/
theorem add_location_track_id (t : TrackIdentifier) (p : String) (n : Nat) :
    (t.add_location p n).track_id = t.track_id := rfl

/-- Helper: `add_location` grows the history by exactly one entry. -/
theorem add_location_length (t : TrackIdentifier) (p : String) (n : Nat) :
    (t.add_location p n).locations.length = t.locations.length + 1 := by
  unfold TrackIdentifier.add_location
  simp

/-- Helper: the last history entry after `add_location` is the new active
location. -/
theorem add_location_getLast (t : TrackIdentifier) (p : String) (n : Nat) :
    (t.add_location p n).locations.getLast? =
      some { track_id := t.track_id, file_path := p, timestamp := n, active := true } := by
  unfold TrackIdentifier.add_location
  simp

/-- Helper: the fold preserves the track id. -/
theorem applyAddLocations_track_id (t : TrackIdentifier) (calls : List (String × Nat)) :
    (applyAddLocations t calls).track_id = t.track_id := by
  induction calls generalizing t with
  | nil => rfl
  | cons c rest ih => exact ih (t.add_location c.1 c.2)

/-- Helper: the fold grows the history by the number of calls. -/
theorem applyAddLocations_length (t : TrackIdentifier) (calls : List (String × Nat)) :
    (applyAddLocations t calls).locations.length =
      t.locations.length + calls.length := by
  induction calls generalizing t with
  | nil => rfl
  | cons c rest ih =>
      show (applyAddLocations (t.add_location c.1 c.2) rest).locations.length = _
      rw [ih, add_location_length]
      simp [Nat.add_assoc, Nat.add_comm 1 rest.length]

/-- C4: after any non-empty run of consecutive `add_location` calls,
exactly one recorded location is active — the one added by the last call,
which is also the last history entry — and the history has grown by
exactly the number of calls (nothing is removed). -/
theorem add_location_one_active (t : TrackIdentifier) (calls : List (String × Nat))
    (hne : calls ≠ []) :
    ∃ p n, calls.getLast? = some (p, n) ∧
      (applyAddLocations t calls).locations.filter (fun loc => loc.active) =
        [{ track_id := t.track_id, file_path := p, timestamp := n, active := true }] ∧
      (applyAddLocations t calls).locations.getLast? =
        some { track_id := t.track_id, file_path := p, timestamp := n, active := true } ∧
      (applyAddLocations t calls).locations.length =
        t.locations.length + calls.length := by
  induction calls using List.reverseRecOn with
  | nil => exact absurd rfl hne
  | append_singleton pre c _ =>
      refine ⟨c.1, c.2, ?_, ?_, ?_, ?_⟩
      · simp
      · have : applyAddLocations t (pre ++ [c]) =
            (applyAddLocations t pre).add_location c.1 c.2 := by
          unfold applyAddLocations
          rw [List.foldl_append]
          rfl
        rw [this, add_location_filter, applyAddLocations_track_id]
      · have : applyAddLocations t (pre ++ [c]) =
            (applyAddLocations t pre).add_location c.1 c.2 := by
          unfold applyAddLocations
          rw [List.foldl_append]
          rfl
        rw [this, add_location_getLast, applyAddLocations_track_id]
      · rw [applyAddLocations_length]

/-- Witness for C4: two consecutive calls on an identity that already has
an active location leave exactly one active location, the last one. -/
theorem add_location_one_active_spotcheck :
    ∃ p n, [("b", 1), ("c", 2)].getLast? = some (p, n) ∧
      (applyAddLocations
          { file_hash := "h", track_id := "t",
            locations := [{ track_id := "t", file_path := "a", timestamp := 0, active := true }] }
          [("b", 1), ("c", 2)]).locations.filter (fun loc => loc.active) =
        [{ track_id := "t", file_path := p, timestamp := n, active := true }] ∧
      (applyAddLocations
          { file_hash := "h", track_id := "t",
            locations := [{ track_id := "t", file_path := "a", timestamp := 0, active := true }] }
          [("b", 1), ("c", 2)]).locations.getLast? =
        some { track_id := "t", file_path := p, timestamp := n, active := true } ∧
      (applyAddLocations
          { file_hash := "h", track_id := "t",
            locations := [{ track_id := "t", file_path := "a", timestamp := 0, active := true }] }
          [("b", 1), ("c", 2)]).locations.length = 1 + 2 :=
  add_location_one_active
    { file_hash := "h", track_id := "t",
      locations := [{ track_id := "t", file_path := "a", timestamp := 0, active := true }] }
    [("b", 1), ("c", 2)] (by decide)

end LocationClaims

section SimilarityClaims

/-- Helper: the zip-and-filter difference count of `similarity_score`
agrees with the positional difference count. -/
theorem zip_filter_length_eq_countDiffering (l1 l2 : List Int) :
    ((l1.zip l2).filter (fun p => p.1 ≠ p.2)).length = countDiffering l1 l2 := by
  induction l1 generalizing l2 with
  | nil => cases l2 <;> rfl
  | cons x xs ih =>
      cases l2 with
      | nil => rfl
      | cons y ys =>
          have hc : countDiffering (x :: xs) (y :: ys) =
              (if x ≠ y then 1 else 0) + countDiffering xs ys := rfl
          rw [List.zip_cons_cons, List.filter_cons, hc]
          by_cases h : x = y
          · rw [if_neg (by simp [h]), if_neg (fun hn => hn h), Nat.zero_add]
            exact ih ys
          · rw [if_pos (by simp [h]), if_pos h, List.length_cons, ih ys]
            omega

/-- Helper: a sequence never differs from itself. -/
theorem countDiffering_self (l : List Int) : countDiffering l l = 0 := by
  induction l with
  | nil => rfl
  | cons x xs ih => simp [countDiffering, ih]

/-- Helper: the spec similarity of a sequence with itself is exactly 1. -/
theorem spec_similarity_self (l : List Int) : spec_similarity l l = 1 := by
  unfold spec_similarity
  simp [countDiffering_self]

/-- Helper: for equal versions and parsed payloads, `similarity_score`
computes the spec's padded-Hamming formula. -/
theorem similarity_eq_spec_aux (a b : AudioFingerprint) (l1 l2 : List Int)
    (hv : a.algorithm_version = b.algorithm_version)
    (h1 : parseFingerprint a.fingerprint = some l1)
    (h2 : parseFingerprint b.fingerprint = some l2) :
    similarity_score a b = .ok (spec_similarity l1 l2) := by
  unfold similarity_score
  rw [if_neg (by simp [hv]), h1, h2]
  simp only [spec_similarity, zip_filter_length_eq_countDiffering]

/-- C5: for equal algorithm versions and well-formed comma-separated
integer fingerprints, `similarity_score` returns exactly the spec's
formula — 1 minus the number of differing positions (after right-padding
the shorter sequence with zeros) over the larger length — and identical
sequences score exactly 1. -/
theorem similarity_score_eq_spec (a b : AudioFingerprint) (l1 l2 : List Int)
    (hv : a.algorithm_version = b.algorithm_version)
    (h1 : parseFingerprint a.fingerprint = some l1)
    (h2 : parseFingerprint b.fingerprint = some l2) :
    similarity_score a b = .ok (spec_similarity l1 l2)
    ∧ (l1 = l2 → similarity_score a b = .ok 1) := by
  have hmain := similarity_eq_spec_aux a b l1 l2 hv h1 h2
  exact ⟨hmain, fun heq => by rw [hmain, heq, spec_similarity_self]⟩

/-- Witness for C5 at the spec's example fingerprints `"1,2,3,4,5"` and
`"1,2,3,4,6"` (one differing position out of five), plus an identical
pair scoring exactly 1. -/
theorem similarity_score_eq_spec_spotcheck :
    (similarity_score
        { fingerprint := "1,2,3,4,5", duration := 0, sample_rate := 44100 }
        { fingerprint := "1,2,3,4,6", duration := 0, sample_rate := 44100 } =
      .ok (spec_similarity [1, 2, 3, 4, 5] [1, 2, 3, 4, 6]))
    ∧ (similarity_score
        { fingerprint := "1,2,3,4,5", duration := 0, sample_rate := 44100 }
        { fingerprint := "1,2,3,4,5", duration := 7, sample_rate := 48000 } =
      .ok 1) := by
  constructor
  · exact (similarity_score_eq_spec
      { fingerprint := "1,2,3,4,5", duration := 0, sample_rate := 44100 }
      { fingerprint := "1,2,3,4,6", duration := 0, sample_rate := 44100 }
      [1, 2, 3, 4, 5] [1, 2, 3, 4, 6] rfl
      (by with_unfolding_all decide) (by with_unfolding_all decide)).1
  · exact (similarity_score_eq_spec
      { fingerprint := "1,2,3,4,5", duration := 0, sample_rate := 44100 }
      { fingerprint := "1,2,3,4,5", duration := 7, sample_rate := 48000 }
      [1, 2, 3, 4, 5] [1, 2, 3, 4, 5] rfl
      (by with_unfolding_all decide) (by with_unfolding_all decide)).2 rfl

/-- C6: `similarity_score` fails with the algorithm-mismatch error
exactly when the two fingerprints carry different algorithm versions, and
for equal versions and well-formed fingerprints it returns a score rather
than an error. -/
theorem similarity_score_mismatch_iff (a b : AudioFingerprint) :
    (similarity_score a b = .error SimError.algorithmMismatch ↔
      a.algorithm_version ≠ b.algorithm_version)
    ∧ (a.algorithm_version = b.algorithm_version →
        ∀ l1 l2, parseFingerprint a.fingerprint = some l1 →
          parseFingerprint b.fingerprint = some l2 →
          ∃ q, similarity_score a b = .ok q) := by
  constructor
  · constructor
    · intro h hv
      unfold similarity_score at h
      rw [if_neg (by simp [hv])] at h
      cases hp1 : parseFingerprint a.fingerprint with
      | none => rw [hp1] at h; cases hp2 : parseFingerprint b.fingerprint <;>
          rw [hp2] at h <;> exact SimError.noConfusion (Except.error.inj h)
      | some l1 =>
          rw [hp1] at h
          cases hp2 : parseFingerprint b.fingerprint with
          | none => rw [hp2] at h; exact SimError.noConfusion (Except.error.inj h)
          | some l2 => rw [hp2] at h; exact Except.noConfusion h
    · intro hv
      unfold similarity_score
      rw [if_pos hv]
  · intro hv l1 l2 h1 h2
    exact ⟨spec_similarity l1 l2, similarity_eq_spec_aux a b l1 l2 hv h1 h2⟩

/-- Witness for C6: a version mismatch yields the mismatch error, and an
equal-version well-formed pair yields a score. -/
theorem similarity_score_mismatch_iff_spotcheck :
    (similarity_score
        { fingerprint := "1,2", duration := 0, sample_rate := 44100,
          algorithm_version := "chromaprint_2" }
        { fingerprint := "1,2", duration := 0, sample_rate := 44100 } =
      .error SimError.algorithmMismatch)
    ∧ ∃ q, similarity_score
        { fingerprint := "1,2", duration := 0, sample_rate := 44100 }
        { fingerprint := "1,3", duration := 0, sample_rate := 44100 } = .ok q := by
  constructor
  · exact (similarity_score_mismatch_iff
      { fingerprint := "1,2", duration := 0, sample_rate := 44100,
        algorithm_version := "chromaprint_2" }
      { fingerprint := "1,2", duration := 0, sample_rate := 44100 }).1.mpr (by decide)
  · exact (similarity_score_mismatch_iff
      { fingerprint := "1,2", duration := 0, sample_rate := 44100 }
      { fingerprint := "1,3", duration := 0, sample_rate := 44100 }).2 rfl [1, 2] [1, 3]
      (by with_unfolding_all decide) (by with_unfolding_all decide)

end SimilarityClaims

section NeedsUpdateClaims

/-- Helper: a track-id list always has the same set as itself. -/
theorem sameTrackSet_self (l : List String) : sameTrackSet l l = true := by
  simp [sameTrackSet, List.all_eq_true]

/-- C8: `_playlist_needs_update` on a playlist and an identical copy is
false; with equal names, counts and track-id sets but a different
`(position, track_id)` sequence it is true; with different names it is
true. -/
theorem needs_update_cases :
    (∀ p : Playlist, playlist_needs_update p p = false)
    ∧ (∀ p q : Playlist, p.name = q.name → p.items.length = q.items.length →
        sameTrackSet (p.items.map (fun i => i.track_id))
          (q.items.map (fun i => i.track_id)) = true →
        trackOrder p ≠ trackOrder q → playlist_needs_update p q = true)
    ∧ (∀ p q : Playlist, p.name ≠ q.name → playlist_needs_update p q = true) := by
  refine ⟨fun p => ?_, fun p q hn hl hs ho => ?_, fun p q hn => ?_⟩
  · unfold playlist_needs_update
    rw [if_neg (fun h => h rfl), if_neg (fun h => h rfl),
      if_neg (fun h => h (sameTrackSet_self _)), if_neg (fun h => h rfl)]
  · unfold playlist_needs_update
    rw [if_neg (fun h => h hn), if_neg (fun h => h hl),
      if_neg (fun h => h hs), if_pos ho]
  · unfold playlist_needs_update
    rw [if_pos hn]

/-- Witness for C8 at concrete playlists: identical copy → false;
order-only change → true; name-only change → true. -/
theorem needs_update_cases_spotcheck :
    playlist_needs_update
        { name := "A", source := PlaylistSource.plex, id := "p1",
          items := [{ playlist_id := "p1", track_id := "t1", position := 0 },
                    { playlist_id := "p1", track_id := "t2", position := 1 }] }
        { name := "A", source := PlaylistSource.plex, id := "p1",
          items := [{ playlist_id := "p1", track_id := "t1", position := 0 },
                    { playlist_id := "p1", track_id := "t2", position := 1 }] } = false
    ∧ playlist_needs_update
        { name := "A", source := PlaylistSource.plex, id := "p1",
          items := [{ playlist_id := "p1", track_id := "t1", position := 0 },
                    { playlist_id := "p1", track_id := "t2", position := 1 }] }
        { name := "A", source := PlaylistSource.plex, id := "p1",
          items := [{ playlist_id := "p1", track_id := "t2", position := 0 },
                    { playlist_id := "p1", track_id := "t1", position := 1 }] } = true
    ∧ playlist_needs_update
        { name := "A", source := PlaylistSource.plex, id := "p1",
          items := [{ playlist_id := "p1", track_id := "t1", position := 0 },
                    { playlist_id := "p1", track_id := "t2", position := 1 }] }
        { name := "B", source := PlaylistSource.plex, id := "p1",
          items := [{ playlist_id := "p1", track_id := "t1", position := 0 },
                    { playlist_id := "p1", track_id := "t2", position := 1 }] } = true := by
  refine ⟨needs_update_cases.1 _, ?_, ?_⟩
  · exact needs_update_cases.2.1 _ _ rfl rfl (by decide) (by decide)
  · exact needs_update_cases.2.2 _ _ (by decide)

end NeedsUpdateClaims

section SyncClockClaims

/-- Helper: a per-source sync update leaves the other source's clock
fields (and the playlist id) of the row untouched. -/
theorem apply_sync_update_frame (row : PlaylistSyncStatus) (status : SyncStatus)
    (version : Option Int) (now : Nat) :
    (apply_sync_update row PlaylistSource.plex status version now).last_rekordbox_sync =
        row.last_rekordbox_sync
    ∧ (apply_sync_update row PlaylistSource.plex status version now).rekordbox_version =
        row.rekordbox_version
    ∧ (apply_sync_update row PlaylistSource.plex status version now).playlist_id =
        row.playlist_id
    ∧ (apply_sync_update row PlaylistSource.rekordbox status version now).last_plex_sync =
        row.last_plex_sync
    ∧ (apply_sync_update row PlaylistSource.rekordbox status version now).plex_version =
        row.plex_version
    ∧ (apply_sync_update row PlaylistSource.rekordbox status version now).playlist_id =
        row.playlist_id := by
  cases hv : versionTruthy version <;> simp [apply_sync_update, hv]

/-- Helper: mapping the conditional per-row update over the sync table
preserves a column the row-level update preserves. -/
theorem sync_table_map_frame {α : Type} (rows : List PlaylistSyncStatus)
    (pid : String) (source : PlaylistSource) (status : SyncStatus)
    (version : Option Int) (now : Nat) (proj : PlaylistSyncStatus → α)
    (hframe : ∀ r, proj (apply_sync_update r source status version now) = proj r) :
    (rows.map (fun r => if r.playlist_id == pid then
        apply_sync_update r source status version now else r)).map proj =
      rows.map proj := by
  induction rows with
  | nil => rfl
  | cons r rest ih =>
      by_cases h : r.playlist_id == pid
      · simp only [List.map_cons, if_pos h, hframe r, ih]
      · simp only [List.map_cons, if_neg h, ih]

/-- C9: `update_sync_status` for one source changes only that source's
clock: row-wise, the other source's last-sync timestamp and version (and
the row's playlist id) are unchanged, and table-wide the other source's
clock column is unchanged, so the two sources' clocks are independent. -/
theorem update_sync_status_independent (row : PlaylistSyncStatus)
    (status : SyncStatus) (version : Option Int) (now : Nat)
    (db : PlaylistDB) (pid : String) :
    (apply_sync_update row PlaylistSource.plex status version now).last_rekordbox_sync =
        row.last_rekordbox_sync
    ∧ (apply_sync_update row PlaylistSource.plex status version now).rekordbox_version =
        row.rekordbox_version
    ∧ (apply_sync_update row PlaylistSource.rekordbox status version now).last_plex_sync =
        row.last_plex_sync
    ∧ (apply_sync_update row PlaylistSource.rekordbox status version now).plex_version =
        row.plex_version
    ∧ ((update_sync_status db pid PlaylistSource.plex status version now).2.playlist_sync.map
          (fun r => (r.last_rekordbox_sync, r.rekordbox_version)) =
        db.playlist_sync.map (fun r => (r.last_rekordbox_sync, r.rekordbox_version)))
    ∧ ((update_sync_status db pid PlaylistSource.rekordbox status version now).2.playlist_sync.map
          (fun r => (r.last_plex_sync, r.plex_version)) =
        db.playlist_sync.map (fun r => (r.last_plex_sync, r.plex_version))) := by
  refine ⟨(apply_sync_update_frame row status version now).1,
    (apply_sync_update_frame row status version now).2.1,
    (apply_sync_update_frame row status version now).2.2.2.1,
    (apply_sync_update_frame row status version now).2.2.2.2.1, ?_, ?_⟩
  · unfold update_sync_status
    by_cases h : db.playlists.any (fun p => p.id == pid)
    · rw [if_pos h]
      exact sync_table_map_frame db.playlist_sync pid PlaylistSource.plex status version now _
        (fun r => by
          rw [Prod.mk.injEq]
          exact ⟨(apply_sync_update_frame r status version now).1,
            (apply_sync_update_frame r status version now).2.1⟩)
    · rw [if_neg h]
  · unfold update_sync_status
    by_cases h : db.playlists.any (fun p => p.id == pid)
    · rw [if_pos h]
      exact sync_table_map_frame db.playlist_sync pid PlaylistSource.rekordbox status version now _
        (fun r => by
          rw [Prod.mk.injEq]
          exact ⟨(apply_sync_update_frame r status version now).2.2.2.1,
            (apply_sync_update_frame r status version now).2.2.2.2.1⟩)
    · rw [if_neg h]

end SyncClockClaims

section ItemUniquenessClaims

/-- Helper: inserting a batch of items for playlist `pid` fails when the
batch repeats a track id, or when some batch item's key is already in the
table. -/
theorem insert_fold_error (pid : String) (items : List PlaylistItem)
    (table : List ItemRow)
    (h : ¬ (items.map (fun i => i.track_id)).Nodup ∨
      ∃ i ∈ items, ∃ r ∈ table, r.playlist_id = pid ∧ r.track_id = i.track_id) :
    ∃ e, items.foldlM
      (fun tbl item => insert_item tbl (mkItemRow pid item)) table = .error e := by
  induction items generalizing table with
  | nil =>
      rcases h with h | ⟨i, hi, _⟩
      · simp at h
      · simp at hi
  | cons x rest ih =>
      rw [List.foldlM_cons]
      cases hany : table.any (fun r =>
          r.playlist_id == (mkItemRow pid x).playlist_id &&
          r.track_id == (mkItemRow pid x).track_id) with
      | true =>
          refine ⟨PersistenceError.uniqueConstraint, ?_⟩
          rw [insert_item, if_pos hany]
          rfl
      | false =>
          have hstep : insert_item table (mkItemRow pid x) =
              .ok (table ++ [mkItemRow pid x]) := by
            rw [insert_item, if_neg (by simp [hany])]
          rw [hstep]
          show ∃ e, rest.foldlM
            (fun tbl item => insert_item tbl (mkItemRow pid item))
            (table ++ [mkItemRow pid x]) = .error e
          apply ih
          rcases h with h | ⟨i, hi, r, hr, hkey⟩
          · rw [List.map_cons, List.nodup_cons] at h
            rcases Decidable.not_and_iff_or_not.mp h with hmem | hnd
            · rcases List.mem_map.mp (Decidable.not_not.mp hmem) with ⟨i, hi, htid⟩
              exact Or.inr ⟨i, hi, mkItemRow pid x,
                List.mem_append_right _ (List.mem_singleton.mpr rfl), rfl, htid.symm⟩
            · exact Or.inl hnd
          · rcases List.mem_cons.mp hi with rfl | hi'
            · have hmatch : (table.any (fun s =>
                  s.playlist_id == (mkItemRow pid i).playlist_id &&
                  s.track_id == (mkItemRow pid i).track_id)) = true :=
                List.any_eq_true.mpr ⟨r, hr, by simp [mkItemRow, hkey.1, hkey.2]⟩
              rw [hany] at hmatch
              exact Bool.noConfusion hmatch
            · exact Or.inr ⟨i, hi', r, List.mem_append_left _ hr, hkey⟩

/-- Helper: a successful `insert_item` preserves the primary-key
invariant. -/
theorem insert_item_preserves_nodup (table : List ItemRow) (row : ItemRow)
    (out : List ItemRow) (hnd : itemsKeyNodup table)
    (h : insert_item table row = .ok out) : itemsKeyNodup out := by
  rw [insert_item] at h
  cases hany : table.any (fun r =>
      r.playlist_id == row.playlist_id && r.track_id == row.track_id) with
  | true => rw [if_pos hany] at h; exact Except.noConfusion h
  | false =>
      rw [if_neg (by simp [hany])] at h
      cases h
      unfold itemsKeyNodup at hnd ⊢
      rw [List.map_append, List.map_singleton]
      refine List.Nodup.append hnd (List.nodup_singleton _) ?_
      have hnomatch : ∀ r ∈ table,
          r.playlist_id = row.playlist_id → ¬ r.track_id = row.track_id := by
        simpa using hany
      intro k hk hk1
      rcases List.mem_map.mp hk with ⟨r, hr, rfl⟩
      rw [List.mem_singleton, Prod.mk.injEq] at hk1
      exact hnomatch r hr hk1.1 hk1.2

/-- Helper: a successful batch insert preserves the primary-key
invariant. -/
theorem insert_fold_preserves_nodup (pid : String) (items : List PlaylistItem)
    (table out : List ItemRow) (hnd : itemsKeyNodup table)
    (h : items.foldlM
      (fun tbl item => insert_item tbl (mkItemRow pid item)) table = .ok out) :
    itemsKeyNodup out := by
  induction items generalizing table with
  | nil =>
      rw [List.foldlM_nil] at h
      cases h
      exact hnd
  | cons x rest ih =>
      rw [List.foldlM_cons] at h
      cases hins : insert_item table (mkItemRow pid x) with
      | error e => rw [hins] at h; exact Except.noConfusion h
      | ok table' =>
          rw [hins] at h
          exact ih table' (insert_item_preserves_nodup _ _ _ hnd hins) h

/-- Helper: deleting rows (a `filter`) preserves the primary-key
invariant. -/
theorem filter_preserves_nodup (table : List ItemRow) (p : ItemRow → Bool)
    (hnd : itemsKeyNodup table) : itemsKeyNodup (table.filter p) :=
  List.Nodup.sublist (List.Sublist.map _ (List.filter_sublist table)) hnd

/-- Helper: under the primary-key invariant, the rows of any one playlist
have pairwise-distinct track ids. -/
theorem nodup_per_playlist (table : List ItemRow) (hnd : itemsKeyNodup table)
    (pid : String) :
    ((table.filter (fun r => r.playlist_id == pid)).map
      (fun r => r.track_id)).Nodup := by
  induction table with
  | nil => exact List.nodup_nil
  | cons r rest ih =>
      unfold itemsKeyNodup at hnd
      rw [List.map_cons, List.nodup_cons] at hnd
      rw [List.filter_cons]
      cases hr : r.playlist_id == pid with
      | false => simpa [hr] using ih hnd.2
      | true =>
          rw [if_pos (by simp [hr])]
          rw [List.map_cons, List.nodup_cons]
          refine ⟨?_, ih hnd.2⟩
          intro hmem
          rcases List.mem_map.mp hmem with ⟨u, hu, htid⟩
          rw [List.mem_filter] at hu
          apply hnd.1
          rw [List.mem_map]
          refine ⟨u, hu.1, ?_⟩
          rw [Prod.mk.injEq]
          exact ⟨(show u.playlist_id = pid by simpa using hu.2).trans
            (show r.playlist_id = pid by simpa using hr).symm, htid⟩

/-- C10: the `playlist_items` primary key `(playlist_id, track_id)`
rejects a playlist whose item list repeats a track id — `create_playlist`
(and `update_playlist` of an existing playlist) fails with a persistence
error rather than storing both occurrences — and both operations preserve
the invariant that stored playlists have pairwise-distinct track ids. -/
theorem playlist_items_unique (db : PlaylistDB) (pl : Playlist) (now : Nat) :
    (¬ (pl.items.map (fun i => i.track_id)).Nodup →
      (∃ e, create_playlist db pl = .error e)
      ∧ (db.playlists.any (fun p => p.id == pl.id) = true →
          ∃ e, update_playlist db pl now = .error e))
    ∧ (itemsKeyNodup db.playlist_items →
        (∀ db', create_playlist db pl = .ok db' → itemsKeyNodup db'.playlist_items)
        ∧ (∀ b db', update_playlist db pl now = .ok (b, db') →
            itemsKeyNodup db'.playlist_items))
    ∧ (∀ table, itemsKeyNodup table → ∀ pid,
        ((table.filter (fun r => r.playlist_id == pid)).map
          (fun r => r.track_id)).Nodup) := by
  refine ⟨fun hdup => ⟨?_, fun hex => ?_⟩, fun hnd => ⟨fun db' h => ?_, fun b db' h => ?_⟩,
    fun table hnd pid => nodup_per_playlist table hnd pid⟩
  · unfold create_playlist
    cases hpl : db.playlists.any (fun p => p.id == pl.id) with
    | true => exact ⟨PersistenceError.uniqueConstraint, by rw [if_pos rfl]⟩
    | false =>
        rcases insert_fold_error pl.id pl.items db.playlist_items (Or.inl hdup) with ⟨e, hfold⟩
        refine ⟨e, ?_⟩
        rw [if_neg (by simp), hfold]
  · unfold update_playlist
    rcases insert_fold_error pl.id pl.items
      (db.playlist_items.filter (fun r => ¬ r.playlist_id == pl.id)) (Or.inl hdup) with ⟨e, hfold⟩
    refine ⟨e, ?_⟩
    rw [if_pos hex]
    simp only [hfold]
  · unfold create_playlist at h
    cases hpl : db.playlists.any (fun p => p.id == pl.id) with
    | true => rw [if_pos hpl] at h; exact Except.noConfusion h
    | false =>
        rw [if_neg (by simp [hpl])] at h
        cases hfold : pl.items.foldlM
            (fun tbl item => insert_item tbl (mkItemRow pl.id item)) db.playlist_items with
        | error e => rw [hfold] at h; exact Except.noConfusion h
        | ok items =>
            rw [hfold] at h
            dsimp only at h
            cases hsync : db.playlist_sync.any (fun r => r.playlist_id == pl.id) with
            | true => rw [if_pos hsync] at h; exact Except.noConfusion h
            | false =>
                rw [if_neg (by simp [hsync])] at h
                cases h
                exact insert_fold_preserves_nodup pl.id pl.items db.playlist_items items hnd hfold
  · unfold update_playlist at h
    cases hpl : db.playlists.any (fun p => p.id == pl.id) with
    | false =>
        rw [if_neg (by simp [hpl])] at h
        cases h
        exact hnd
    | true =>
        rw [if_pos hpl] at h
        dsimp only at h
        cases hfold : pl.items.foldlM
            (fun tbl item => insert_item tbl (mkItemRow pl.id item))
            (db.playlist_items.filter (fun r => ¬ r.playlist_id == pl.id)) with
        | error e => rw [hfold] at h; exact Except.noConfusion h
        | ok items =>
            rw [hfold] at h
            dsimp only at h
            cases h
            exact insert_fold_preserves_nodup pl.id pl.items _ items
              (filter_preserves_nodup db.playlist_items _ hnd) hfold

/-- Witness for C10: creating a playlist that repeats track id `"t1"`
fails, updating an existing playlist to such an item list fails, a
successful create keeps the key invariant, and under the invariant a
playlist's stored track ids are pairwise distinct. -/
theorem playlist_items_unique_spotcheck :
    (∃ e, create_playlist { playlists := [], playlist_items := [], playlist_sync := [] }
      { name := "P", source := PlaylistSource.plex, id := "p1",
        items := [{ playlist_id := "p1", track_id := "t1", position := 0 },
                  { playlist_id := "p1", track_id := "t1", position := 1 }] } = .error e)
    ∧ (∃ e, update_playlist
        { playlists := [{ name := "P", source := PlaylistSource.plex, id := "p1" }],
          playlist_items := [], playlist_sync := [] }
        { name := "P", source := PlaylistSource.plex, id := "p1",
          items := [{ playlist_id := "p1", track_id := "t1", position := 0 },
                    { playlist_id := "p1", track_id := "t1", position := 1 }] } 0 = .error e)
    ∧ itemsKeyNodup
        ({ playlists := [{ name := "P", source := PlaylistSource.plex, id := "p1",
                           items := [{ playlist_id := "p1", track_id := "t1", position := 0 },
                                     { playlist_id := "p1", track_id := "t2", position := 1 }] }],
           playlist_items := [{ playlist_id := "p1", track_id := "t1", position := 0 },
                              { playlist_id := "p1", track_id := "t2", position := 1 }],
           playlist_sync := [{ playlist_id := "p1" }] } : PlaylistDB).playlist_items
    ∧ ((([{ playlist_id := "p1", track_id := "t1", position := 0 },
           { playlist_id := "p1", track_id := "t2", position := 1 }] : List ItemRow).filter
            (fun r => r.playlist_id == "p1")).map (fun r => r.track_id)).Nodup := by
  refine ⟨?_, ?_, ?_, ?_⟩
  · exact ((playlist_items_unique _ _ 0).1 (by decide)).1
  · exact ((playlist_items_unique _ _ 0).1 (by decide)).2 rfl
  · exact ((playlist_items_unique
        { playlists := [], playlist_items := [], playlist_sync := [] }
        { name := "P", source := PlaylistSource.plex, id := "p1",
          items := [{ playlist_id := "p1", track_id := "t1", position := 0 },
                    { playlist_id := "p1", track_id := "t2", position := 1 }] } 0).2.1
      List.nodup_nil).1 _ rfl
  · exact (playlist_items_unique
        { playlists := [], playlist_items := [], playlist_sync := [] }
        { name := "P", source := PlaylistSource.plex, id := "p1" } 0).2.2
      [{ playlist_id := "p1", track_id := "t1", position := 0 },
       { playlist_id := "p1", track_id := "t2", position := 1 }]
      (by unfold itemsKeyNodup; decide) "p1"

end ItemUniquenessClaims

section ConfidenceRecomputeClaim

/-- C1 (divergence evidence): creating a new track through
`identify_track` for a hash-only file stores `confidence_level =
UNCERTAIN`, while the confidence function applied to the methods the
identity then holds (HASH and PATH) yields `LOW` — the service never
recomputes the confidence level, contradicting the spec and the repo's
own test `test_identify_new_track` (which asserts `LOW`). -/
theorem confidence_stale_after_create :
    (identify_track [] { file_hash := "h", fingerprint := none, path := "p" } "id1" 0).map
      (fun r => (r.1.identifier.confidence_level,
        confidenceOf r.1.identifier.methods_available, r.1.is_new))
      = .ok (ConfidenceLevel.uncertain, ConfidenceLevel.low, true) := by
  with_unfolding_all decide

end ConfidenceRecomputeClaim

section FingerprintSelectionClaim

/-- Counterexample for C2: with two stored identities whose fingerprints
both reach the 0.85 threshold — the first scoring 6/7, the second scoring
a strictly higher 1 — `_find_by_fingerprint` returns the first one
scanned (track `"A"`), not the one with the highest similarity score. -/
theorem find_by_fingerprint_not_highest :
    ((find_by_fingerprint
        [{ file_hash := "ha", track_id := "A",
           audio_fingerprint := some { fingerprint := "1,2,3,4,5,6,99",
                                       duration := 0, sample_rate := 44100 } },
         { file_hash := "hb", track_id := "B",
           audio_fingerprint := some { fingerprint := "1,2,3,4,5,6,7",
                                       duration := 0, sample_rate := 44100 } }]
        { fingerprint := "1,2,3,4,5,6,7", duration := 0, sample_rate := 44100 }
        0.85).map (fun r => r.map (fun t => t.track_id)))
      = .ok (some "A")
    ∧ similarity_score
        { fingerprint := "1,2,3,4,5,6,7", duration := 0, sample_rate := 44100 }
        { fingerprint := "1,2,3,4,5,6,99", duration := 0, sample_rate := 44100 }
      = .ok (6 / 7)
    ∧ similarity_score
        { fingerprint := "1,2,3,4,5,6,7", duration := 0, sample_rate := 44100 }
        { fingerprint := "1,2,3,4,5,6,7", duration := 0, sample_rate := 44100 }
      = .ok 1
    ∧ (6 / 7 : Rat) < 1
    ∧ (0.85 : Rat) ≤ 6 / 7 := by
  refine ⟨?_, ?_, ?_, ?_, ?_⟩ <;> with_unfolding_all decide

/-- Helper: when every stored fingerprint's similarity against the query
computes, the `_find_by_fingerprint` scan returns the first row whose
similarity meets the threshold. -/
theorem find_by_fingerprint_eq_find (store : List TrackIdentifier)
    (q : AudioFingerprint) (th : Rat)
    (hok : store.all (simComputes q) = true) :
    find_by_fingerprint store q th = .ok (store.find? (meetsThreshold q th)) := by
  induction store with
  | nil => rfl
  | cons t rest ih =>
      rw [List.all_cons, Bool.and_eq_true] at hok
      rw [find_by_fingerprint]
      cases hfp : t.audio_fingerprint with
      | none =>
          dsimp only
          rw [List.find?_cons_of_neg _ (by unfold meetsThreshold; rw [hfp]; simp)]
          exact ih hok.2
      | some s =>
          have hcomp := hok.1
          unfold simComputes at hcomp
          rw [hfp] at hcomp
          dsimp only at hcomp
          dsimp only
          cases hsim : similarity_score q s with
          | error e => simp [hsim] at hcomp
          | ok v =>
              dsimp only
              by_cases hth : th ≤ v
              · rw [if_pos hth, List.find?_cons_of_pos _ (by
                  unfold meetsThreshold
                  rw [hfp]
                  dsimp only
                  rw [hsim]
                  simpa using hth)]
              · rw [if_neg hth, List.find?_cons_of_neg _ (by
                  unfold meetsThreshold
                  rw [hfp]
                  dsimp only
                  rw [hsim]
                  simpa using hth)]
                exact ih hok.2

/-- C2 amended: when every stored fingerprint's similarity against the
query computes (same algorithm version, well-formed sequences),
`_find_by_fingerprint` returns the FIRST identity in scan order whose
similarity meets the threshold — not necessarily the highest-scoring one
— and when no stored identity meets the 0.85 threshold, `identify_track`
creates a new identity. -/
theorem find_by_fingerprint_first_match (store : List TrackIdentifier)
    (q : AudioFingerprint) (th : Rat)
    (hok : store.all (simComputes q) = true) :
    find_by_fingerprint store q th = .ok (store.find? (meetsThreshold q th))
    ∧ (∀ file fresh_id now, file.fingerprint = some q →
        find_by_hash store file.file_hash = none →
        store.find? (meetsThreshold q 0.85) = none →
        ∃ r st, identify_track store file fresh_id now = .ok (r, st) ∧
          r.is_new = true ∧ r.identifier.track_id = fresh_id) := by
  refine ⟨find_by_fingerprint_eq_find store q th hok, ?_⟩
  intro file fresh_id now hfpq hhash hfind
  unfold identify_track
  rw [hhash]
  dsimp only
  rw [hfpq]
  dsimp only
  rw [find_by_fingerprint_eq_find store q 0.85 hok, hfind]
  exact ⟨_, _, rfl, rfl, rfl⟩

/-- Witness for the amended C2: on the two-identity counterexample store
the scan result coincides with first-match selection, and on a store
whose only fingerprint scores 0 against the query the service creates a
new identity. -/
theorem find_by_fingerprint_first_match_spotcheck :
    find_by_fingerprint
        [{ file_hash := "ha", track_id := "A",
           audio_fingerprint := some { fingerprint := "1,2,3,4,5,6,99",
                                       duration := 0, sample_rate := 44100 } },
         { file_hash := "hb", track_id := "B",
           audio_fingerprint := some { fingerprint := "1,2,3,4,5,6,7",
                                       duration := 0, sample_rate := 44100 } }]
        { fingerprint := "1,2,3,4,5,6,7", duration := 0, sample_rate := 44100 } 0.85
      = .ok ([{ file_hash := "ha", track_id := "A",
                audio_fingerprint := some { fingerprint := "1,2,3,4,5,6,99",
                                            duration := 0, sample_rate := 44100 } },
              { file_hash := "hb", track_id := "B",
                audio_fingerprint := some { fingerprint := "1,2,3,4,5,6,7",
                                            duration := 0, sample_rate := 44100 } }].find?
          (meetsThreshold
            { fingerprint := "1,2,3,4,5,6,7", duration := 0, sample_rate := 44100 } 0.85))
    ∧ ∃ r st, identify_track
        [{ file_hash := "hc", track_id := "C",
           audio_fingerprint := some { fingerprint := "50,60",
                                       duration := 0, sample_rate := 44100 } }]
        { file_hash := "hx",
          fingerprint := some { fingerprint := "1,2", duration := 0, sample_rate := 44100 },
          path := "p" } "fresh" 0 = .ok (r, st) ∧
        r.is_new = true ∧ r.identifier.track_id = "fresh" := by
  constructor
  · exact (find_by_fingerprint_first_match _ _ 0.85 (by with_unfolding_all decide)).1
  · exact (find_by_fingerprint_first_match _
        { fingerprint := "1,2", duration := 0, sample_rate := 44100 } 0.85
        (by with_unfolding_all decide)).2
      { file_hash := "hx",
        fingerprint := some { fingerprint := "1,2", duration := 0, sample_rate := 44100 },
        path := "p" } "fresh" 0 rfl rfl (by with_unfolding_all decide)

end FingerprintSelectionClaim

section IdentifyTwiceClaim

/-- Helper: `_update_existing_track` preserves the track id. -/
theorem update_existing_track_id (t : TrackIdentifier) (p : String)
    (fp : Option AudioFingerprint) (now : Nat) :
    (update_existing_track t p fp now).identifier.track_id = t.track_id := by
  cases fp <;> rfl

/-- Helper: `_update_existing_track` never changes the file hash. -/
theorem update_existing_file_hash (t : TrackIdentifier) (p : String)
    (fp : Option AudioFingerprint) (now : Nat) :
    (update_existing_track t p fp now).identifier.file_hash = t.file_hash := by
  cases fp <;> rfl

/-- Helper: `_update_existing_track` reports an existing track. -/
theorem update_existing_is_new (t : TrackIdentifier) (p : String)
    (fp : Option AudioFingerprint) (now : Nat) :
    (update_existing_track t p fp now).is_new = false := by
  cases fp <;> rfl

/-- Helper: `_update_existing_track` with a new fingerprint records it. -/
theorem update_existing_fingerprint (t : TrackIdentifier) (p : String)
    (q : AudioFingerprint) (now : Nat) :
    (update_existing_track t p (some q) now).identifier.audio_fingerprint = some q := rfl

/-- Helper: a successful `similarity_score` run parsed the query
fingerprint. -/
theorem similarity_ok_parse (q s : AudioFingerprint) (v : Rat)
    (h : similarity_score q s = .ok v) :
    ∃ l, parseFingerprint q.fingerprint = some l := by
  unfold similarity_score at h
  by_cases hv : q.algorithm_version ≠ s.algorithm_version
  · rw [if_pos hv] at h
    exact Except.noConfusion h
  · rw [if_neg hv] at h
    cases hp : parseFingerprint q.fingerprint with
    | some l => exact ⟨l, rfl⟩
    | none =>
        rw [hp] at h
        cases hp2 : parseFingerprint s.fingerprint <;> rw [hp2] at h <;>
          exact Except.noConfusion h

/-- Helper: both components of a pair drawn from a list zipped with
itself are equal. -/
theorem zip_self_mem_eq {l : List Int} {a b : Int} (h : (a, b) ∈ l.zip l) :
    a = b := by
  induction l with
  | nil => simp at h
  | cons x xs ih =>
      rw [List.zip_cons_cons, List.mem_cons] at h
      rcases h with h | h
      · rw [Prod.mk.injEq] at h
        rw [h.1, h.2]
      · exact ih h

/-- Helper: a fingerprint whose payload parses scores exactly 1 against
itself. -/
theorem similarity_self (q : AudioFingerprint) (l : List Int)
    (h : parseFingerprint q.fingerprint = some l) :
    similarity_score q q = .ok 1 := by
  unfold similarity_score
  rw [if_neg (by simp), h]
  simp only []
  refine congrArg Except.ok ?_
  rw [Nat.max_self, Nat.sub_self, List.replicate_zero, List.append_nil,
    zip_filter_length_eq_countDiffering, countDiffering_self]
  norm_num

/-- Helper: a failed hash lookup means no stored row has the hash. -/
theorem find_by_hash_none_forall (store : List TrackIdentifier) (h : String)
    (hf : find_by_hash store h = none) :
    ∀ u ∈ store, u.file_hash ≠ h := by
  intro u hu
  have := List.find?_eq_none.mp hf u hu
  simpa using this

/-- Helper: a successful hash lookup splits the store into a scanned
prefix without the hash, the found row, and a suffix. -/
theorem find_by_hash_some_decomp (store : List TrackIdentifier) (h : String)
    (t : TrackIdentifier) (hf : find_by_hash store h = some t) :
    ∃ pre post, store = pre ++ t :: post ∧ (∀ u ∈ pre, u.file_hash ≠ h) ∧
      t.file_hash = h := by
  induction store with
  | nil => exact Option.noConfusion hf
  | cons u rest ih =>
      cases hbe : u.file_hash == h with
      | true =>
          rw [find_by_hash,
            @List.find?_cons_of_pos _ (fun t => t.file_hash == h) u rest hbe] at hf
          obtain rfl := Option.some.inj hf
          exact ⟨[], rest, rfl, by simp, by simpa using hbe⟩
      | false =>
          rw [find_by_hash,
            @List.find?_cons_of_neg _ (fun t => t.file_hash == h) u rest
              (by simp [hbe])] at hf
          rcases ih hf with ⟨pre, post, heq, hpre, hth⟩
          refine ⟨u :: pre, post, by rw [heq]; rfl, ?_, hth⟩
          intro w hw
          rcases List.mem_cons.mp hw with rfl | hw
          · simpa using hbe
          · exact hpre w hw

/-- Helper: appending a row carrying the sought hash to a store without
it makes the lookup return that row. -/
theorem find_by_hash_append_new (store : List TrackIdentifier)
    (nt : TrackIdentifier)
    (hnone : ∀ u ∈ store, u.file_hash ≠ nt.file_hash) :
    find_by_hash (store ++ [nt]) nt.file_hash = some nt := by
  induction store with
  | nil =>
      rw [List.nil_append, find_by_hash,
        @List.find?_cons_of_pos _ (fun t => t.file_hash == nt.file_hash) nt []
          (by simp)]
  | cons u rest ih =>
      rw [List.cons_append, find_by_hash,
        @List.find?_cons_of_neg _ (fun t => t.file_hash == nt.file_hash) u
          (rest ++ [nt]) (by simpa using hnone u (List.mem_cons_self u rest))]
      exact ih (fun w hw => hnone w (List.mem_cons_of_mem u hw))

/-- Helper: replacing the rows with a given track id by a row carrying
the sought hash, in a store without that hash, makes the lookup return
the replacement. -/
theorem find_by_hash_map_replace (store : List TrackIdentifier)
    (nt : TrackIdentifier)
    (hnone : ∀ u ∈ store, u.file_hash ≠ nt.file_hash)
    (hany : store.any (fun u => u.track_id == nt.track_id) = true) :
    find_by_hash (store.map
      (fun u => if u.track_id == nt.track_id then nt else u)) nt.file_hash = some nt := by
  induction store with
  | nil => exact Bool.noConfusion hany
  | cons u rest ih =>
      rw [List.map_cons, find_by_hash]
      cases hu : u.track_id == nt.track_id with
      | true =>
          rw [if_pos rfl,
            @List.find?_cons_of_pos _ (fun t => t.file_hash == nt.file_hash) nt _
              (by simp)]
      | false =>
          rw [if_neg (by simp),
            @List.find?_cons_of_neg _ (fun t => t.file_hash == nt.file_hash) u _
              (by simpa using hnone u (List.mem_cons_self u rest))]
          rw [List.any_cons, hu, Bool.false_or] at hany
          exact ih (fun w hw => hnone w (List.mem_cons_of_mem u hw)) hany

/-- Helper: `_save_track` of a row with a fresh hash makes the hash
lookup return a row with that row's track id. -/
theorem find_by_hash_save_new (store : List TrackIdentifier)
    (nt : TrackIdentifier)
    (hnone : ∀ u ∈ store, u.file_hash ≠ nt.file_hash) :
    ∃ u, find_by_hash (save_track store nt) nt.file_hash = some u ∧
      u.track_id = nt.track_id := by
  unfold save_track
  cases hany : store.any (fun u => u.track_id == nt.track_id) with
  | true =>
      rw [if_pos (by simp [hany])]
      exact ⟨nt, find_by_hash_map_replace store nt hnone hany, rfl⟩
  | false =>
      rw [if_neg (by simp [hany])]
      exact ⟨nt, find_by_hash_append_new store nt hnone, rfl⟩

/-- Helper: replacing rows of one track id by a row without the sought
hash, in a store without that hash, leaves the lookup unsuccessful. -/
theorem find_by_hash_map_none (store : List TrackIdentifier)
    (nt : TrackIdentifier) (h : String) (tid : String)
    (hnone : ∀ u ∈ store, u.file_hash ≠ h) (hnt : nt.file_hash ≠ h) :
    find_by_hash (store.map
      (fun u => if u.track_id == tid then nt else u)) h = none := by
  apply List.find?_eq_none.mpr
  intro a ha
  rcases List.mem_map.mp ha with ⟨u, hu, rfl⟩
  by_cases hc : u.track_id == tid
  · rw [if_pos hc]
    simpa using hnt
  · rw [if_neg hc]
    simpa using hnone u hu

/-- Helper: a successful fingerprint scan splits the store into a
skipped prefix, the matched row (with its similarity fact), and a
suffix. -/
theorem find_by_fingerprint_some_decomp (store : List TrackIdentifier)
    (q : AudioFingerprint) (th : Rat) (t : TrackIdentifier)
    (hf : find_by_fingerprint store q th = .ok (some t)) :
    ∃ pre post, store = pre ++ t :: post ∧ (∀ u ∈ pre, scanSkips q th u) ∧
      ∃ s v, t.audio_fingerprint = some s ∧ similarity_score q s = .ok v ∧
        th ≤ v := by
  induction store with
  | nil => exact Option.noConfusion (Except.ok.inj hf)
  | cons u rest ih =>
      rw [find_by_fingerprint] at hf
      cases hfp : u.audio_fingerprint with
      | none =>
          rw [hfp] at hf
          dsimp only at hf
          rcases ih hf with ⟨pre, post, heq, hpre, hfacts⟩
          refine ⟨u :: pre, post, by rw [heq]; rfl, ?_, hfacts⟩
          intro w hw
          rcases List.mem_cons.mp hw with rfl | hw
          · exact Or.inl hfp
          · exact hpre w hw
      | some s =>
          rw [hfp] at hf
          dsimp only at hf
          cases hsim : similarity_score q s with
          | error e =>
              rw [hsim] at hf
              exact Except.noConfusion hf
          | ok v =>
              rw [hsim] at hf
              dsimp only at hf
              by_cases hth : th ≤ v
              · rw [if_pos hth] at hf
                obtain rfl := Option.some.inj (Except.ok.inj hf)
                exact ⟨[], rest, rfl, by simp, s, v, hfp, hsim, hth⟩
              · rw [if_neg hth] at hf
                rcases ih hf with ⟨pre, post, heq, hpre, hfacts⟩
                refine ⟨u :: pre, post, by rw [heq]; rfl, ?_, hfacts⟩
                intro w hw
                rcases List.mem_cons.mp hw with rfl | hw
                · exact Or.inr ⟨s, v, hfp, hsim, not_le.mp hth⟩
                · exact hpre w hw

/-- Helper: after replacing the matched row's track id by an updated row
that carries the query fingerprint itself, the rescan again stops at a
row with that track id. -/
theorem find_by_fingerprint_rescan (pre post : List TrackIdentifier)
    (q : AudioFingerprint) (th : Rat) (tr upd : TrackIdentifier)
    (hskip : ∀ u ∈ pre, scanSkips q th u)
    (hufp : upd.audio_fingerprint = some q)
    (hid : upd.track_id = tr.track_id)
    (hself : similarity_score q q = .ok 1) (hth1 : th ≤ 1) :
    ∃ w, find_by_fingerprint
        ((pre ++ tr :: post).map
          (fun u => if u.track_id == tr.track_id then upd else u)) q th
      = .ok (some w) ∧ w.track_id = tr.track_id := by
  induction pre with
  | nil =>
      refine ⟨upd, ?_, hid⟩
      rw [List.nil_append, List.map_cons, if_pos (by simp),
        find_by_fingerprint, hufp]
      dsimp only
      rw [hself]
      dsimp only
      rw [if_pos hth1]
  | cons u pre ih =>
      have htail := ih (fun w hw => hskip w (List.mem_cons_of_mem u hw))
      rcases htail with ⟨w, hw, hwid⟩
      rw [List.cons_append, List.map_cons, find_by_fingerprint]
      by_cases hu : u.track_id == tr.track_id
      · refine ⟨upd, ?_, hid⟩
        rw [if_pos hu, hufp]
        dsimp only
        rw [hself]
        dsimp only
        rw [if_pos hth1]
      · refine ⟨w, ?_, hwid⟩
        rw [if_neg hu]
        rcases hskip u (List.mem_cons_self u pre) with hnone | ⟨s, v, hs, hv, hlt⟩
        · rw [hnone]
          dsimp only
          exact hw
        · rw [hs]
          dsimp only
          rw [hv]
          dsimp only
          rw [if_neg (not_le.mpr hlt)]
          exact hw

/-- Helper: `_create_new_track` uses the freshly drawn track id. -/
theorem create_new_track_id (p hsh : String) (fp : Option AudioFingerprint)
    (fid : String) (now : Nat) :
    (create_new_track p hsh fp fid now).identifier.track_id = fid := rfl

/-- Helper: `_create_new_track` stores the computed file hash. -/
theorem create_new_file_hash (p hsh : String) (fp : Option AudioFingerprint)
    (fid : String) (now : Nat) :
    (create_new_track p hsh fp fid now).identifier.file_hash = hsh := rfl

/-- Helper: after replacing the found row's track id by an updated row
that keeps the sought hash, the hash lookup again returns a row with that
track id. -/
theorem find_by_hash_rescan (pre post : List TrackIdentifier) (h : String)
    (tr upd : TrackIdentifier)
    (hpre : ∀ u ∈ pre, u.file_hash ≠ h)
    (huh : upd.file_hash = h) (hid : upd.track_id = tr.track_id) :
    ∃ w, find_by_hash
        ((pre ++ tr :: post).map
          (fun u => if u.track_id == tr.track_id then upd else u)) h
      = some w ∧ w.track_id = tr.track_id := by
  induction pre with
  | nil =>
      refine ⟨upd, ?_, hid⟩
      rw [List.nil_append, List.map_cons, if_pos (by simp), find_by_hash,
        @List.find?_cons_of_pos _ (fun t => t.file_hash == h) upd _ (by simp [huh])]
  | cons u pre ih =>
      rcases ih (fun w hw => hpre w (List.mem_cons_of_mem u hw)) with ⟨w, hw, hwid⟩
      rw [List.cons_append, List.map_cons]
      by_cases hu : u.track_id == tr.track_id
      · refine ⟨upd, ?_, hid⟩
        rw [if_pos hu, find_by_hash,
          @List.find?_cons_of_pos _ (fun t => t.file_hash == h) upd _ (by simp [huh])]
      · refine ⟨w, ?_, hwid⟩
        rw [if_neg hu, find_by_hash,
          @List.find?_cons_of_neg _ (fun t => t.file_hash == h) u _
            (by simpa using hpre u (List.mem_cons_self u pre))]
        exact hw

/-- C7: identifying the same unchanged file twice — the second run
against the store produced by the first — succeeds, reports
`is_new = false`, and returns the same track id as the first run. -/
theorem identify_track_twice (store : List TrackIdentifier) (file : FileInput)
    (id1 : String) (now1 : Nat) (id2 : String) (now2 : Nat)
    (r1 : TrackIdentificationResult) (st1 : List TrackIdentifier)
    (h : identify_track store file id1 now1 = .ok (r1, st1)) :
    ∃ r2 st2, identify_track st1 file id2 now2 = .ok (r2, st2) ∧
      r2.is_new = false ∧ r2.identifier.track_id = r1.identifier.track_id := by
  unfold identify_track at h
  cases hfind : find_by_hash store file.file_hash with
  | some tr =>
      rw [hfind] at h
      dsimp only at h
      rw [Except.ok.injEq, Prod.mk.injEq] at h
      obtain ⟨hr1, hst1⟩ := h
      rcases find_by_hash_some_decomp store file.file_hash tr hfind with
        ⟨pre, post, hsplit, hpre, htrhash⟩
      rcases find_by_hash_rescan pre post file.file_hash tr
          (update_existing_track tr file.path none now1).identifier hpre
          (by rw [update_existing_file_hash]; exact htrhash)
          (update_existing_track_id tr file.path none now1) with ⟨w, hw, hwid⟩
      have hany : store.any (fun u =>
          u.track_id ==
            (update_existing_track tr file.path none now1).identifier.track_id) = true := by
        apply List.any_eq_true.mpr
        refine ⟨tr, ?_, ?_⟩
        · rw [hsplit]
          exact List.mem_append_right _ (List.mem_cons_self _ _)
        · rw [update_existing_track_id]
          simp
      have hst1' : st1 = (pre ++ tr :: post).map (fun u =>
          if u.track_id == tr.track_id then
            (update_existing_track tr file.path none now1).identifier else u) := by
        rw [← hst1]
        unfold save_track
        rw [if_pos (by simp [hany]), hsplit]
        simp only [update_existing_track_id]
      have hfound2 : find_by_hash st1 file.file_hash = some w := by
        rw [hst1']
        exact hw
      refine ⟨update_existing_track w file.path none now2,
        save_track st1 (update_existing_track w file.path none now2).identifier, ?_,
        update_existing_is_new w file.path none now2, ?_⟩
      · unfold identify_track
        rw [hfound2]
      · rw [update_existing_track_id, hwid, ← hr1, update_existing_track_id]
  | none =>
      rw [hfind] at h
      dsimp only at h
      have hnone := find_by_hash_none_forall store file.file_hash hfind
      cases hfpf : file.fingerprint with
      | none =>
          rw [hfpf] at h
          dsimp only at h
          rw [Except.ok.injEq, Prod.mk.injEq] at h
          obtain ⟨hr1, hst1⟩ := h
          rcases find_by_hash_save_new store
              (create_new_track file.path file.file_hash none id1 now1).identifier
              hnone with ⟨w, hw, hwid⟩
          have hfound2 : find_by_hash st1 file.file_hash = some w := by
            rw [← hst1]
            exact hw
          refine ⟨update_existing_track w file.path none now2,
            save_track st1 (update_existing_track w file.path none now2).identifier, ?_,
            update_existing_is_new w file.path none now2, ?_⟩
          · unfold identify_track
            rw [hfound2]
          · rw [update_existing_track_id, hwid, ← hr1]
      | some q =>
          rw [hfpf] at h
          dsimp only at h
          cases hscan : find_by_fingerprint store q 0.85 with
          | error e =>
              rw [hscan] at h
              exact Except.noConfusion h
          | ok opt =>
              rw [hscan] at h
              cases opt with
              | none =>
                  dsimp only at h
                  rw [Except.ok.injEq, Prod.mk.injEq] at h
                  obtain ⟨hr1, hst1⟩ := h
                  rcases find_by_hash_save_new store
                      (create_new_track file.path file.file_hash (some q) id1 now1).identifier
                      hnone with ⟨w, hw, hwid⟩
                  have hfound2 : find_by_hash st1 file.file_hash = some w := by
                    rw [← hst1]
                    exact hw
                  refine ⟨update_existing_track w file.path none now2,
                    save_track st1 (update_existing_track w file.path none now2).identifier, ?_,
                    update_existing_is_new w file.path none now2, ?_⟩
                  · unfold identify_track
                    rw [hfound2]
                  · rw [update_existing_track_id, hwid, ← hr1]
              | some sim =>
                  dsimp only at h
                  rw [Except.ok.injEq, Prod.mk.injEq] at h
                  obtain ⟨hr1, hst1⟩ := h
                  rcases find_by_fingerprint_some_decomp store q 0.85 sim hscan with
                    ⟨pre, post, hsplit, hpre, s, v, hsfp, hsim, hthv⟩
                  rcases similarity_ok_parse q s v hsim with ⟨l, hparse⟩
                  have hself := similarity_self q l hparse
                  have hth1 : (0.85 : Rat) ≤ 1 := by norm_num
                  rcases find_by_fingerprint_rescan pre post q 0.85 sim
                      (update_existing_track sim file.path (some q) now1).identifier hpre
                      (update_existing_fingerprint sim file.path q now1)
                      (update_existing_track_id sim file.path (some q) now1)
                      hself hth1 with ⟨w, hw, hwid⟩
                  have hsimmem : sim ∈ store := by
                    rw [hsplit]
                    exact List.mem_append_right _ (List.mem_cons_self _ _)
                  have hany : store.any (fun u =>
                      u.track_id ==
                        (update_existing_track sim file.path (some q) now1).identifier.track_id)
                        = true := by
                    apply List.any_eq_true.mpr
                    refine ⟨sim, hsimmem, ?_⟩
                    rw [update_existing_track_id]
                    simp
                  have hst1' : st1 = (pre ++ sim :: post).map (fun u =>
                      if u.track_id == sim.track_id then
                        (update_existing_track sim file.path (some q) now1).identifier
                      else u) := by
                    rw [← hst1]
                    unfold save_track
                    rw [if_pos (by simp [hany]), hsplit]
                    simp only [update_existing_track_id]
                  have hfound2none : find_by_hash st1 file.file_hash = none := by
                    rw [hst1']
                    apply find_by_hash_map_none
                    · intro u hu
                      apply hnone
                      rw [hsplit]
                      exact hu
                    · rw [update_existing_file_hash]
                      exact hnone sim hsimmem
                  have hfound2fp : find_by_fingerprint st1 q 0.85 = .ok (some w) := by
                    rw [hst1']
                    exact hw
                  refine ⟨update_existing_track w file.path (some q) now2,
                    save_track st1 (update_existing_track w file.path (some q) now2).identifier, ?_,
                    update_existing_is_new w file.path (some q) now2, ?_⟩
                  · unfold identify_track
                    rw [hfound2none]
                    dsimp only
                    rw [hfpf]
                    dsimp only
                    rw [hfound2fp]
                  · rw [update_existing_track_id, hwid, ← hr1, update_existing_track_id]

/-- Witness for C7: identifying a fresh hash-only file on an empty store
and then identifying it again yields `is_new = false` and the same track
id. -/
theorem identify_track_twice_spotcheck :
    ∃ r2 st2, identify_track
        (save_track []
          (create_new_track "p" "h" none "id1" 0).identifier)
        { file_hash := "h", fingerprint := none, path := "p" } "id2" 1 = .ok (r2, st2) ∧
      r2.is_new = false ∧
      r2.identifier.track_id =
        (create_new_track "p" "h" none "id1" 0).identifier.track_id :=
  identify_track_twice [] { file_hash := "h", fingerprint := none, path := "p" }
    "id1" 0 "id2" 1
    (create_new_track "p" "h" none "id1" 0)
    (save_track [] (create_new_track "p" "h" none "id1" 0).identifier) rfl

end IdentifyTwiceClaim

end Deckdex
